import Mathlib

/-!
Shallow embedding of the moderation core of a Telegram group-moderation bot
(`bot.py`, SQLite backend; `db.py`, MongoDB backend).

Modelling conventions:
* Message text is a `List Char`; Python `str.lower()` / `str.isupper()` are
  modelled on the ASCII range (`pyToLower`, `pyIsUpper`), which is where the
  two languages agree and where every claim lives.
* Wall-clock time (`time.time()`) is modelled as an integer number of seconds.
* The SQLite tables (`warns`, `filters`) and the in-memory flood cache
  (a Python dict) are association lists; a SQL `UPDATE` rewrites every row
  matching the key, an `INSERT` appends a row, a dict assignment rewrites the
  entry in place or appends it.
* Platform calls (delete, send, restrict, edit) and audit-log inserts are
  emitted as an explicit `Effect` list; the source catches and swallows their
  failures, so an emitted effect means "the call was attempted".
-/

/-- ASCII fragment of Python `str.isupper` for a single character
(codepoints 65..90). -/
def pyIsUpper (c : Char) : Bool :=
  decide (65 ≤ c.toNat ∧ c.toNat ≤ 90)

/-- ASCII fragment of Python `str.lower` for a single character:
uppercase letters are shifted by 32, everything else is unchanged. -/
def pyToLower (c : Char) : Char :=
  if 65 ≤ c.toNat ∧ c.toNat ≤ 90 then Char.ofNat (c.toNat + 32) else c

/-- Python `text.lower()` on the ASCII fragment. -/
def lowerText (s : List Char) : List Char := s.map pyToLower

/-- Number of uppercase characters, `sum(1 for c in text if c.isupper())`. -/
def countUpper (s : List Char) : Nat := (s.filter pyIsUpper).length

/-- ASCII whitespace, the complement of the regex class `\S`. -/
def pyIsSpace (c : Char) : Bool :=
  c = ' ' || c = '\t' || c = '\n' || c = '\r' || c = '\x0b' || c = '\x0c'

/-- ASCII fragment of the regex word class `\w`: letters, digits, underscore. -/
def pyIsWordChar (c : Char) : Bool :=
  (65 ≤ c.toNat && c.toNat ≤ 90) || (97 ≤ c.toNat && c.toNat ≤ 122) ||
  (48 ≤ c.toNat && c.toNat ≤ 57) || c = '_'

/-- Strip a literal pattern from the front of a character list; `none` if the
list does not start with the pattern. -/
def stripLit : List Char → List Char → Option (List Char)
  | [], cs => some cs
  | _ :: _, [] => none
  | p :: ps, c :: cs => if c = p then stripLit ps cs else none

/-- Does the list start with at least one non-whitespace character
(the regex `\S+` needs one)? -/
def hasNonSpaceHead : List Char → Bool
  | [] => false
  | c :: _ => !pyIsSpace c

/-- Does `https?://\S+` match at the head of the list? -/
def matchHttpAt (cs : List Char) : Bool :=
  (match stripLit ("http://".toList) cs with
   | some rest => hasNonSpaceHead rest
   | none => false) ||
  (match stripLit ("https://".toList) cs with
   | some rest => hasNonSpaceHead rest
   | none => false)

/-- Does `\bwww\.\S+` match at the head of the list, `prev` being the
character just before the current position (`none` at the start of text)? -/
def matchWwwAt (prev : Option Char) (cs : List Char) : Bool :=
  (match prev with
   | none => true
   | some p => !pyIsWordChar p) &&
  (match stripLit ("www.".toList) cs with
   | some rest => hasNonSpaceHead rest
   | none => false)

/-- Scan of `URL_REGEX.search`: try the alternation at every position. -/
def urlSearchAux : Option Char → List Char → Bool
  | _, [] => false
  | prev, c :: rest =>
      matchHttpAt (c :: rest) || matchWwwAt prev (c :: rest) ||
      urlSearchAux (some c) rest

/-- Model of `URL_REGEX.search(text)` viewed as a Boolean:
`re.compile(r"(https?://\S+|\bwww\.\S+)", re.IGNORECASE)` applied to text
that the caller has already lowercased. -/
def urlSearch (cs : List Char) : Bool := urlSearchAux none cs

/-- Does `pat` start the list `cs`? -/
def startsWithL (pat cs : List Char) : Bool := (stripLit pat cs).isSome

/-- Python substring containment `pat in text`. -/
def containsSub (pat : List Char) : List Char → Bool
  | [] => pat.isEmpty
  | c :: rest => startsWithL pat (c :: rest) || containsSub pat rest

/-- The built-in list `DEFAULT_BADWORDS = ["spamword1","scam","porn","sex","casino","fake"]`. -/
def DEFAULT_BADWORDS : List (List Char) :=
  ["spamword1".toList, "scam".toList, "porn".toList, "sex".toList,
   "casino".toList, "fake".toList]

/-- First-match association-list lookup (`SELECT ... LIMIT first row`,
Python dict `get`). -/
def alookup {β : Type} : List ((Int × Int) × β) → (Int × Int) → Option β
  | [], _ => none
  | (k, v) :: rest, key => if k = key then some v else alookup rest key

/-- Platform calls and audit-log rows emitted by a handler, in order. -/
inductive Effect : Type
  /-- call `msg.delete()` (best effort). -/
  | deleteMsg : Effect
  /-- call `log_action(chat, user, action, reason)`: an audit-log row. -/
  | audit (action reason : List Char) : Effect
  /-- the public warning notice `⚠️ User warned (count/limit). Reason: ...`. -/
  | warnNotice (count limit : Int) (reason : List Char) : Effect
  /-- the public mute announcement. -/
  | muteNotice : Effect
  /-- call `restrict_chat_member(..., can_send_messages=False, [until_date=now+d])`. -/
  | restrictNoSend (untilDelta : Option Int) : Effect
  /-- call `restrict_chat_member` granting the four listed capabilities. -/
  | grantPerms (canSend canMedia canPreview canOther : Bool) : Effect
  /-- the captcha challenge message with its inline button bound to `bound`. -/
  | sendChallenge (bound : Int) : Effect
  /-- a kick/ban platform call (never emitted by this program). -/
  | kick : Effect
deriving DecidableEq

namespace Bot

/-- The `warns` table: key `(chat_id, user_id)`, value `(count, last_warn_ts)`. -/
abbrev WarnTable : Type := List ((Int × Int) × (Int × Int))

/-- Model of `get_warn_count`: first matching row's count, `0` when no record exists. -/
def get_warn_count (w : WarnTable) (chat user : Int) : Int :=
  match alookup w (chat, user) with
  | some v => v.1
  | none => 0

/-- Model of `set_warn_count`: `UPDATE` the matching rows if one exists
(count and `last_warn_ts`), otherwise `INSERT` a fresh row. -/
def set_warn_count (w : WarnTable) (chat user count now : Int) : WarnTable :=
  if (alookup w (chat, user)).isSome then
    w.map (fun p => if p.1 = (chat, user) then ((chat, user), (count, now)) else p)
  else w ++ [((chat, user), (count, now))]

/-- Model of `reset_warn`: `DELETE FROM warns WHERE chat_id=? AND user_id=?`. -/
def reset_warn (w : WarnTable) (chat user : Int) : WarnTable :=
  w.filter (fun p => p.1 ≠ (chat, user))

/-- The in-memory `_flood_cache` dict: `(chat_id, user_id) ↦ [timestamps]`. -/
abbrev FloodCache : Type := List ((Int × Int) × List Int)

/-- Python dict assignment `_flood_cache[key] = hits`. -/
def setEntry (cache : FloodCache) (k : Int × Int) (v : List Int) : FloodCache :=
  if (alookup cache k).isSome then
    cache.map (fun p => if p.1 = k then (k, v) else p)
  else cache ++ [(k, v)]

/-- Model of `check_flood(chat_id, user_id, limit)`: read the key's hits, drop entries
with `now - t >= 7`, append `now`, store back, and report whether the stored
list is longer than `limit`. -/
def check_flood (cache : FloodCache) (chat user now lim : Int) :
    FloodCache × Bool :=
  let hits0 := (alookup cache (chat, user)).getD []
  let hits := hits0.filter (fun t => decide (now - t < 7)) ++ [now]
  (setEntry cache (chat, user) hits, decide ((hits.length : Int) > lim))

/-- A sequence of `check_flood` calls for one key at the given times,
threading the cache and collecting the returned Booleans in order. -/
def runFlood (chat user lim : Int) :
    FloodCache → List Int → FloodCache × List Bool
  | cache, [] => (cache, [])
  | cache, t :: ts =>
      let r := check_flood cache chat user t lim
      let rest := runFlood chat user lim r.1 ts
      (rest.1, r.2 :: rest.2)

/-- Model of `warn_user(context, chat_id, user_id, reason)`: guard against missing ids,
read the count (0 when absent) and add 1, persist it, send the warning notice,
log `warn`; if the new count has reached the global `WARN_LIMIT`, restrict the
user for 3600 seconds, announce the mute, log `mute`, and delete the warn row.
`warnLimit` is the process-global `WARN_LIMIT`; `now` is `int(time.time())`. -/
def warn_user (warnLimit : Int) (warns : WarnTable)
    (chatOpt userOpt : Option Int) (now : Int) (reason : List Char) :
    WarnTable × List Effect :=
  match chatOpt, userOpt with
  | some chat, some user =>
      let count := get_warn_count warns chat user + 1
      let warns1 := set_warn_count warns chat user count now
      let base := [Effect.warnNotice count warnLimit reason,
                   Effect.audit ("warn".toList) reason]
      if count ≥ warnLimit then
        (reset_warn warns1 chat user,
         base ++ [Effect.restrictNoSend (some 3600), Effect.muteNotice,
                  Effect.audit ("mute".toList) ("warn_limit_reached".toList)])
      else (warns1, base)
  | _, _ => (warns, [])

/-- The body of `message_filter` up to (and excluding) the `warn_user` calls:
early-return for bot senders, `text = (msg.text or msg.caption or "").lower()`,
then flood check, link rule (admins exempt), banned-word rule (chat filters,
falling back to `DEFAULT_BADWORDS` when none are configured), and the caps
rule — all on `text`, first match wins.  `antispam`, `blockLinks` and
`floodLimit` are the values `get_setting` returned for this chat (integers,
tested for truthiness as in Python); the returned `Option` is the reason
passed to `warn_user` when escalation is invoked. -/
def message_filter (cache : FloodCache) (chat user now : Int)
    (antispam blockLinks floodLimit : Int) (isAdmin isBot : Bool)
    (chatFilters : List (List Char)) (rawText : List Char) :
    FloodCache × List Effect × Option (List Char) :=
  if isBot then (cache, [], none)
  else
    let text := lowerText rawText
    let fc := check_flood cache chat user now floodLimit
    if fc.2 then
      (fc.1, [Effect.deleteMsg, Effect.audit ("deleted".toList) ("flood".toList)],
       some ("Flooding".toList))
    else if blockLinks ≠ 0 ∧ urlSearch text ∧ isAdmin = false then
      (fc.1, [Effect.deleteMsg, Effect.audit ("deleted".toList) ("link".toList)],
       some ("Posting links".toList))
    else
      let fs := if chatFilters.isEmpty then DEFAULT_BADWORDS else chatFilters
      match fs.find? (fun w => !w.isEmpty && containsSub w text) with
      | some w =>
          (fc.1, [Effect.deleteMsg,
                  Effect.audit ("deleted".toList) ("badword:".toList ++ w)],
           some ("Use of banned word: ".toList ++ w))
      | none =>
          if text ≠ [] ∧ countUpper text > 25 ∧ text.length < 400 then
            (fc.1, [Effect.deleteMsg,
                    Effect.audit ("deleted".toList) ("caps spam".toList)],
             some ("Caps spam".toList))
          else (fc.1, [], none)

/-- Composition of `message_filter` with the `warn_user` call it performs at each
violation site: the whole per-message moderation pipeline. -/
def handle_message (warnLimit : Int) (warns : WarnTable) (cache : FloodCache)
    (chat user now : Int) (antispam blockLinks floodLimit : Int)
    (isAdmin isBot : Bool) (chatFilters : List (List Char))
    (rawText : List Char) : WarnTable × FloodCache × List Effect :=
  match message_filter cache chat user now antispam blockLinks floodLimit
      isAdmin isBot chatFilters rawText with
  | (cache1, effs, none) => (warns, cache1, effs)
  | (cache1, effs, some reason) =>
      let wr := warn_user warnLimit warns (some chat) (some user) now reason
      (wr.1, cache1, effs ++ wr.2)

/-- Model of the `/setwarnlimit` handler: `arg` encodes the command input — `none` for no
arguments (usage reply), `some none` for a first argument `int()` rejects
(invalid-number reply), `some (some n)` for a parsed value.  Returns the new
process-global `WARN_LIMIT` and the reply text. -/
def set_warn_limit_cmd (warnLimit : Int) (arg : Option (Option Int)) :
    Int × List Char :=
  match arg with
  | none => (warnLimit, "Usage: /setwarnlimit <n>".toList)
  | some none => (warnLimit, "Invalid number.".toList)
  | some (some n) => (n, "Global warn limit set".toList)

/-- The challenge message: its current text and, when the inline
`I am human` button is still attached, the user id bound in the button's
`captcha:<id>` payload. -/
structure ChallengeMsg : Type where
  text : List Char
  button : Option Int
deriving DecidableEq

/-- Model of `edit_message_text(new_text)` with no `reply_markup` argument: the text
is replaced and the inline keyboard is removed. -/
def edit_message_text (_m : ChallengeMsg) (t : List Char) : ChallengeMsg :=
  { text := t, button := none }

/-- Challenge text sent on join (`WELCOME_TEXT` plus the verify prompt). -/
def welcomeText : List Char :=
  "Welcome! Please verify using the button.".toList

/-- Rejection text shown on a mismatched click. -/
def notForYouText : List Char := "This verification is not for you.".toList

/-- Confirmation text shown on a successful verification. -/
def verifiedText : List Char := "Verified - welcome!".toList

/-- Model of `captcha_click`: `cbData` is the id parsed from a `captcha:<id>` payload
(`none` when the payload does not start with `captcha:`, in which case the
handler body does nothing).  A mismatched clicker only gets the challenge
message edited to a rejection; a matching clicker is granted the four
capabilities, the message is edited to a confirmation, and a `verified`
audit row is appended. -/
def captcha_click (m : ChallengeMsg) (cbData : Option Int) (clicker : Int) :
    ChallengeMsg × List Effect :=
  match cbData with
  | none => (m, [])
  | some bound =>
      if clicker ≠ bound then (edit_message_text m notForYouText, [])
      else (edit_message_text m verifiedText,
            [Effect.grantPerms true true true true,
             Effect.audit ("verified".toList) ("captcha".toList)])

/-- A click on the challenge message is routed through its inline button:
with no button there is no callback and nothing happens; with a button the
payload carries the bound id and `captcha_click` runs. -/
def dispatchClick (m : ChallengeMsg) (clicker : Int) :
    ChallengeMsg × List Effect :=
  match m.button with
  | none => (m, [])
  | some bound => captcha_click m (some bound) clicker

/-- Model of `check_unverified`: the scheduled sweep's body is a bare `return` —
no state is read or changed and no platform call is made. -/
def check_unverified {α : Type} (s : α) : α × List Effect := (s, [])

/-- Join-verification state of one (chat, user): whether the join
restriction is in force and the current challenge message, if any. -/
structure VerifState : Type where
  restricted : Bool
  challenge : Option ChallengeMsg
deriving DecidableEq

/-- The three program events that touch a joiner's verification state:
the `chat_member_handler` join branch, a button click, and the
`check_unverified` sweep. -/
inductive VerifOp : Type
  | join : VerifOp
  | click (clicker : Int) : VerifOp
  | sweep : VerifOp
deriving DecidableEq

/-- One step of the join-verification machine for user `u`:
`join` restricts and posts a fresh challenge bound to `u`; a click is
dispatched through the challenge's button and lifts the restriction exactly
when the clicker matches the bound id; the sweep is `check_unverified`. -/
def stepVerif (u : Int) : VerifOp → VerifState → VerifState × List Effect
  | VerifOp.join, _ =>
      ({ restricted := true,
         challenge := some { text := welcomeText, button := some u } },
       [Effect.restrictNoSend none, Effect.sendChallenge u])
  | VerifOp.click clicker, s =>
      match s.challenge with
      | none => (s, [])
      | some m =>
          match m.button with
          | none => (s, [])
          | some bound =>
              let r := captcha_click m (some bound) clicker
              ({ restricted := if clicker = bound then false else s.restricted,
                 challenge := some r.1 }, r.2)
  | VerifOp.sweep, s => check_unverified s

/-- Model of `add_filter` (SQLite backend): a bare
`INSERT INTO filters (chat_id, word) VALUES (?, ?)` of the lowercased word —
a new row is appended unconditionally. -/
def add_filter (table : List (Int × List Char)) (chat : Int) (w : List Char) :
    List (Int × List Char) :=
  table ++ [(chat, lowerText w)]

end Bot

namespace Db

/-- Model of `add_filter` (MongoDB backend): `update_one` with filter
`(chat_id, word)`, a `$set` of the same two fields, and `upsert=True` —
an existing document is left as it is, otherwise one is inserted.
The word is stored as given (no lowercasing in this function). -/
def add_filter (col : List (Int × List Char)) (chat : Int) (w : List Char) :
    List (Int × List Char) :=
  if (chat, w) ∈ col then col else col ++ [(chat, w)]

end Db

/-! ## Helper lemmas -/

theorem toNat_charOfNat (n : Nat) (h : Nat.isValidChar n) :
    (Char.ofNat n).toNat = n := by
  unfold Char.ofNat
  rw [dif_pos h]
  unfold Char.ofNatAux Char.toNat
  simp [UInt32.toNat, BitVec.toNat_ofNatLt]

theorem pyIsUpper_pyToLower (c : Char) : pyIsUpper (pyToLower c) = false := by
  unfold pyToLower
  split
  · next h =>
      have hv : Nat.isValidChar (c.toNat + 32) := Or.inl (by omega)
      simp only [pyIsUpper, toNat_charOfNat _ hv]
      rw [decide_eq_false_iff_not]
      omega
  · next h =>
      simp only [pyIsUpper]
      rw [decide_eq_false_iff_not]
      exact h

theorem countUpper_lowerText (text : List Char) :
    countUpper (lowerText text) = 0 := by
  induction text with
  | nil => rfl
  | cons c rest ih =>
      unfold lowerText countUpper at ih ⊢
      simp [List.filter_cons, pyIsUpper_pyToLower, ih]

theorem alookup_map_update {β : Type} (w : List ((Int × Int) × β))
    (k : Int × Int) (v : β) :
    alookup (w.map (fun p => if p.1 = k then (k, v) else p)) k
      = (alookup w k).map (fun _ => v) := by
  induction w with
  | nil => rfl
  | cons p rest ih =>
      obtain ⟨pk, pv⟩ := p
      by_cases h : pk = k
      · have e1 : (if (pk, pv).1 = k then (k, v) else (pk, pv)) = (k, v) :=
          if_pos h
        have e2 : alookup ((pk, pv) :: rest) k = some pv := if_pos h
        rw [List.map_cons, e1, e2]
        have e3 : alookup ((k, v) :: List.map
              (fun p => if p.1 = k then (k, v) else p) rest) k = some v :=
          if_pos rfl
        rw [e3]
        rfl
      · have e1 : (if (pk, pv).1 = k then (k, v) else (pk, pv)) = (pk, pv) :=
          if_neg h
        have e2 : alookup ((pk, pv) :: rest) k = alookup rest k := if_neg h
        have e3 : alookup ((pk, pv) :: List.map
              (fun p => if p.1 = k then (k, v) else p) rest) k
            = alookup (List.map (fun p => if p.1 = k then (k, v) else p) rest)
                k := if_neg h
        rw [List.map_cons, e1, e2, e3, ih]

theorem alookup_append_single {β : Type} (w : List ((Int × Int) × β))
    (k : Int × Int) (v : β) (h : alookup w k = none) :
    alookup (w ++ [(k, v)]) k = some v := by
  induction w with
  | nil => simp [alookup]
  | cons p rest ih =>
      obtain ⟨pk, pv⟩ := p
      by_cases hpk : pk = k
      · rw [hpk] at h
        simp [alookup] at h
      · simp [alookup, hpk] at h ⊢
        exact ih h

theorem alookup_filter_ne {β : Type} (w : List ((Int × Int) × β))
    (k : Int × Int) :
    alookup (w.filter (fun p => p.1 ≠ k)) k = none := by
  induction w with
  | nil => rfl
  | cons p rest ih =>
      obtain ⟨pk, pv⟩ := p
      rw [List.filter_cons]
      by_cases h : pk = k
      · rw [if_neg (by simp [h])]
        exact ih
      · rw [if_pos (by simp [h])]
        have e : alookup ((pk, pv) :: rest.filter (fun p => p.1 ≠ k)) k
            = alookup (rest.filter (fun p => p.1 ≠ k)) k := if_neg h
        rw [e]
        exact ih

theorem get_warn_count_set (w : Bot.WarnTable) (chat user count now : Int) :
    Bot.get_warn_count (Bot.set_warn_count w chat user count now) chat user
      = count := by
  unfold Bot.get_warn_count Bot.set_warn_count
  by_cases h : (alookup w (chat, user)).isSome
  · rw [if_pos h, alookup_map_update]
    cases hx : alookup w (chat, user) with
    | none => rw [hx] at h; simp at h
    | some v => simp
  · rw [if_neg h,
        alookup_append_single _ _ _ (Option.not_isSome_iff_eq_none.mp h)]

theorem get_warn_count_reset (w : Bot.WarnTable) (chat user : Int) :
    Bot.get_warn_count (Bot.reset_warn w chat user) chat user = 0 := by
  unfold Bot.get_warn_count Bot.reset_warn
  rw [alookup_filter_ne]

theorem warn_user_count_after (warnLimit : Int) (warns : Bot.WarnTable)
    (chat user now : Int) (reason : List Char) :
    Bot.get_warn_count
        (Bot.warn_user warnLimit warns (some chat) (some user) now reason).1
        chat user
      = if Bot.get_warn_count warns chat user + 1 ≥ warnLimit then 0
        else Bot.get_warn_count warns chat user + 1 := by
  by_cases h : Bot.get_warn_count warns chat user + 1 ≥ warnLimit
  · simp [Bot.warn_user, h, get_warn_count_reset]
  · simp [Bot.warn_user, h, get_warn_count_set]

theorem warn_user_mute_iff (warnLimit : Int) (warns : Bot.WarnTable)
    (chat user now : Int) (reason : List Char) :
    Effect.restrictNoSend (some 3600)
        ∈ (Bot.warn_user warnLimit warns (some chat) (some user) now reason).2
      ↔ Bot.get_warn_count warns chat user + 1 ≥ warnLimit := by
  by_cases h : Bot.get_warn_count warns chat user + 1 ≥ warnLimit
  · simp [Bot.warn_user, h]
  · simp [Bot.warn_user, h]

/-! ## Claim theorems -/

/-- C1: every `warn_user` call increments the persisted warn count by 1
(reading 0 when no record exists); when the new count reaches or exceeds the
configured warn limit, a 3600-second mute restriction is applied and the
persisted count is reset to 0 in the same step, so the count observed after
any `warn_user` call is always either strictly below the limit or 0. -/
theorem warn_user_escalation_cycle (warnLimit : Int) (warns : Bot.WarnTable)
    (chat user now : Int) (reason : List Char) :
    Bot.get_warn_count
        (Bot.warn_user warnLimit warns (some chat) (some user) now reason).1
        chat user
      = (if Bot.get_warn_count warns chat user + 1 ≥ warnLimit then 0
         else Bot.get_warn_count warns chat user + 1)
    ∧ (Effect.restrictNoSend (some 3600)
         ∈ (Bot.warn_user warnLimit warns (some chat) (some user) now reason).2
        ↔ Bot.get_warn_count warns chat user + 1 ≥ warnLimit)
    ∧ (Bot.get_warn_count
          (Bot.warn_user warnLimit warns (some chat) (some user) now reason).1
          chat user < warnLimit
       ∨ Bot.get_warn_count
          (Bot.warn_user warnLimit warns (some chat) (some user) now reason).1
          chat user = 0) := by
  refine ⟨warn_user_count_after warnLimit warns chat user now reason,
          warn_user_mute_iff warnLimit warns chat user now reason, ?_⟩
  rw [warn_user_count_after warnLimit warns chat user now reason]
  by_cases h : Bot.get_warn_count warns chat user + 1 ≥ warnLimit
  · rw [if_pos h]
    exact Or.inr rfl
  · rw [if_neg h]
    exact Or.inl (by omega)

/-- C2: `check_flood` appends the current time to the key's timestamp
sequence, discards entries older than 7 seconds from the current time, and
returns true iff the resulting count exceeds the given limit; in particular,
with limit 5, six calls within one second make the sixth call return true,
while five calls spaced 8 seconds apart all return false. -/
theorem check_flood_window_spec :
    (∀ (cache : Bot.FloodCache) (chat user now lim : Int),
        Bot.check_flood cache chat user now lim
          = (Bot.setEntry cache (chat, user)
               ((((alookup cache (chat, user)).getD []) ++ [now]).filter
                 (fun t => decide (now - t < 7))),
             decide ((((((alookup cache (chat, user)).getD []) ++ [now]).filter
                 (fun t => decide (now - t < 7))).length : Int) > lim)))
    ∧ (Bot.runFlood 1 2 5 [] [0, 0, 0, 0, 0, 1]).2
        = [false, false, false, false, false, true]
    ∧ (Bot.runFlood 1 2 5 [] [0, 8, 16, 24, 32]).2
        = [false, false, false, false, false] := by
  refine ⟨fun cache chat user now lim => ?_, by decide, by decide⟩
  have h7 : (now - now : Int) < 7 := by omega
  have hcomm : (((alookup cache (chat, user)).getD []) ++ [now]).filter
        (fun t => decide (now - t < 7))
      = ((alookup cache (chat, user)).getD []).filter
          (fun t => decide (now - t < 7)) ++ [now] := by
    rw [List.filter_append]
    simp [h7]
  unfold Bot.check_flood
  rw [hcomm]

/-- C3: the claim says the caps-spam rule fires exactly when the raw text has
more than 25 uppercase characters and length under 400 — but the code counts
uppercase characters in the text it lowercased at entry, so the count is
always 0 and the rule never fires: a 30-character all-uppercase message
passes the whole filter clean. -/
theorem caps_rule_never_fires :
    (∀ text : List Char, countUpper (lowerText text) = 0)
    ∧ Bot.message_filter [] 1 2 0 1 1 5 false false []
        (List.replicate 30 'A')
        = ([((1, 2), [0])], [], none)
    ∧ countUpper (List.replicate 30 'A') = 30
    ∧ (List.replicate 30 'A').length < 400 :=
  ⟨countUpper_lowerText, by decide, by decide, by decide⟩

/-- C4: for a non-admin, non-bot message that does not trip the flood check,
in a chat with link blocking enabled, whose text contains both a URL and a
configured banned word, classification short-circuits at the link rule: the
message is deleted and logged with reason `link`, and escalation is invoked
with the link reason, not the banned-word reason. -/
theorem link_rule_shadows_badword (cache : Bot.FloodCache)
    (chat user now antispam blockLinks floodLimit : Int)
    (chatFilters : List (List Char)) (rawText : List Char)
    (hflood : (Bot.check_flood cache chat user now floodLimit).2 = false)
    (hlinks : blockLinks ≠ 0)
    (hurl : urlSearch (lowerText rawText) = true)
    (hword : ∃ w ∈ (if chatFilters.isEmpty then DEFAULT_BADWORDS
                    else chatFilters),
        w ≠ [] ∧ containsSub w (lowerText rawText) = true) :
    Bot.message_filter cache chat user now antispam blockLinks floodLimit
        false false chatFilters rawText
      = ((Bot.check_flood cache chat user now floodLimit).1,
         [Effect.deleteMsg,
          Effect.audit ("deleted".toList) ("link".toList)],
         some ("Posting links".toList)) := by
  simp [Bot.message_filter, hflood, hlinks, hurl]

/-- C4 witness: a concrete message containing both a `www.` URL and the
default banned word `scam` is classified with reason `link`. -/
theorem link_rule_shadows_badword_witness :
    Bot.message_filter [] 1 2 0 1 1 5 false false []
        ("visit www.scam.net now".toList)
      = ([((1, 2), [0])],
         [Effect.deleteMsg,
          Effect.audit ("deleted".toList) ("link".toList)],
         some ("Posting links".toList)) :=
  (link_rule_shadows_badword [] 1 2 0 1 1 5 [] ("visit www.scam.net now".toList)
      (by decide) (by decide) (by decide) (by decide)).trans (by decide)

/-- C5: a verification click whose responder differs from the id bound in
the challenge payload is rejected with a visible notice and causes no
permission change; a matching click grants back exactly the four
capabilities (send, media, link preview, other messages), edits the
challenge message to a confirmation, and appends an audit row tagged
`verified`. -/
theorem captcha_click_identity_check (m : Bot.ChallengeMsg)
    (bound clicker : Int) :
    (clicker ≠ bound →
       (Bot.captcha_click m (some bound) clicker).2 = []
       ∧ (Bot.captcha_click m (some bound) clicker).1.text
           = Bot.notForYouText)
    ∧ (clicker = bound →
       (Bot.captcha_click m (some bound) clicker).2
           = [Effect.grantPerms true true true true,
              Effect.audit ("verified".toList) ("captcha".toList)]
       ∧ (Bot.captcha_click m (some bound) clicker).1.text
           = Bot.verifiedText) := by
  constructor
  · intro h
    simp [Bot.captcha_click, h, Bot.edit_message_text]
  · intro h
    simp [Bot.captcha_click, h, Bot.edit_message_text]

/-- C5 witness: concrete mismatched (clicker 2, bound 1) and matching
(clicker 1, bound 1) clicks on a fresh challenge. -/
theorem captcha_click_identity_check_witness :
    ((Bot.captcha_click { text := Bot.welcomeText, button := some 1 }
        (some 1) 2).2 = []
     ∧ (Bot.captcha_click { text := Bot.welcomeText, button := some 1 }
        (some 1) 2).1.text = Bot.notForYouText)
    ∧ ((Bot.captcha_click { text := Bot.welcomeText, button := some 1 }
        (some 1) 1).2
          = [Effect.grantPerms true true true true,
             Effect.audit ("verified".toList) ("captcha".toList)]
     ∧ (Bot.captcha_click { text := Bot.welcomeText, button := some 1 }
        (some 1) 1).1.text = Bot.verifiedText) :=
  ⟨(captcha_click_identity_check
      { text := Bot.welcomeText, button := some 1 } 1 2).1 (by decide),
   (captcha_click_identity_check
      { text := Bot.welcomeText, button := some 1 } 1 1).2 rfl⟩

/-- C6: the moderation outcome — suppression, audit entries, escalation —
is identical in two runs that differ only in the chat's `antispam` setting:
the flag is read but never gates the flood, link, banned-word or caps
checks. -/
theorem antispam_flag_inert (warnLimit : Int) (warns : Bot.WarnTable)
    (cache : Bot.FloodCache) (chat user now a1 a2 blockLinks floodLimit : Int)
    (isAdmin isBot : Bool) (chatFilters : List (List Char))
    (rawText : List Char) :
    Bot.handle_message warnLimit warns cache chat user now a1 blockLinks
        floodLimit isAdmin isBot chatFilters rawText
      = Bot.handle_message warnLimit warns cache chat user now a2 blockLinks
        floodLimit isAdmin isBot chatFilters rawText := rfl

/-- C7: a successful `/setwarnlimit n` sets the single process-wide warn
limit, and every subsequent escalation decision, in every chat, compares
the warn count against that same `n`. -/
theorem warn_limit_process_global (wl n : Int) (warns : Bot.WarnTable)
    (chat user now : Int) (reason : List Char) :
    (Bot.set_warn_limit_cmd wl (some (some n))).1 = n
    ∧ (Effect.restrictNoSend (some 3600)
         ∈ (Bot.warn_user (Bot.set_warn_limit_cmd wl (some (some n))).1
              warns (some chat) (some user) now reason).2
        ↔ Bot.get_warn_count warns chat user + 1 ≥ n) :=
  ⟨rfl, warn_user_mute_iff n warns chat user now reason⟩

/-- C8 counterexample: in the SQLite backend, `add_filter` is a bare INSERT,
so adding the same word twice for the same chat yields two identical
(chat_id, word) rows — the claimed set semantics fail in that backend. -/
theorem add_filter_duplicates_cx :
    Bot.add_filter (Bot.add_filter [] 1 ("scam".toList)) 1 ("scam".toList)
      = [(1, "scam".toList), (1, "scam".toList)]
    ∧ ¬ List.Nodup
        (Bot.add_filter (Bot.add_filter [] 1 ("scam".toList)) 1
          ("scam".toList)) := by
  decide

/-- C8 amended: the Mongo backend's `add_filter` upserts on (chat_id, word)
and so preserves set semantics (but stores the word as given); the SQLite
backend's `add_filter` lowercases the stored word but bare-inserts, so each
call adds one more (chat_id, lowercased word) row, duplicates included. -/
theorem add_filter_backend_semantics (col : List (Int × List Char))
    (chat : Int) (w : List Char) (t : List (Int × List Char))
    (hnd : col.Nodup) :
    (Db.add_filter col chat w).Nodup
    ∧ List.count (chat, lowerText w) (Bot.add_filter t chat w)
        = List.count (chat, lowerText w) t + 1 := by
  constructor
  · unfold Db.add_filter
    split
    · exact hnd
    · next h =>
        rw [List.nodup_append]
        refine ⟨hnd, List.nodup_singleton _, ?_⟩
        intro a ha hb
        simp at hb
        subst hb
        exact h ha
  · unfold Bot.add_filter
    rw [List.count_append]
    simp

/-- C8 amended witness: a concrete add into empty stores. -/
theorem add_filter_backend_semantics_witness :
    (Db.add_filter [] 1 ("Scam".toList)).Nodup
    ∧ List.count (1, lowerText ("Scam".toList))
        (Bot.add_filter [] 1 ("Scam".toList))
        = List.count (1, lowerText ("Scam".toList))
            ([] : List (Int × List Char)) + 1 :=
  add_filter_backend_semantics [] 1 ("Scam".toList) [] (by decide)

/-- C9: no operation of the program kicks a join-restricted user or expires
the challenge; the timeout sweep `check_unverified` performs no action, and
the only step that takes the restriction away is a click whose responder
matches the id bound in the challenge's button. -/
theorem restriction_exit_requires_match (u : Int) (op : Bot.VerifOp)
    (s : Bot.VerifState) :
    Effect.kick ∉ (Bot.stepVerif u op s).2
    ∧ Bot.stepVerif u Bot.VerifOp.sweep s = (s, [])
    ∧ (s.restricted = true → (Bot.stepVerif u op s).1.restricted = false →
        ∃ c m, op = Bot.VerifOp.click c ∧ s.challenge = some m
          ∧ m.button = some c) := by
  refine ⟨?_, rfl, ?_⟩
  · cases op with
    | join => simp [Bot.stepVerif]
    | sweep => simp [Bot.stepVerif, Bot.check_unverified]
    | click clicker =>
        cases hc : s.challenge with
        | none => simp [Bot.stepVerif, hc]
        | some m =>
            cases hb : m.button with
            | none => simp [Bot.stepVerif, hc, hb]
            | some bound =>
                by_cases hq : clicker = bound
                · simp [Bot.stepVerif, hc, hb, Bot.captcha_click, hq]
                · simp [Bot.stepVerif, hc, hb, Bot.captcha_click, hq]
  · intro hr hlift
    cases op with
    | join => simp [Bot.stepVerif] at hlift
    | sweep =>
        simp [Bot.stepVerif, Bot.check_unverified] at hlift
        rw [hr] at hlift
        exact Bool.noConfusion hlift
    | click clicker =>
        cases hc : s.challenge with
        | none =>
            rw [show Bot.stepVerif u (Bot.VerifOp.click clicker) s
                  = (s, []) by simp [Bot.stepVerif, hc]] at hlift
            rw [hr] at hlift
            exact Bool.noConfusion hlift
        | some m =>
            cases hb : m.button with
            | none =>
                rw [show Bot.stepVerif u (Bot.VerifOp.click clicker) s
                      = (s, []) by simp [Bot.stepVerif, hc, hb]] at hlift
                rw [hr] at hlift
                exact Bool.noConfusion hlift
            | some bound =>
                by_cases hq : clicker = bound
                · exact ⟨clicker, m, rfl, rfl, by rw [hb, hq]⟩
                · rw [show (Bot.stepVerif u (Bot.VerifOp.click clicker) s).1.restricted
                        = s.restricted by
                      simp [Bot.stepVerif, hc, hb, hq]] at hlift
                  rw [hr] at hlift
                  exact Bool.noConfusion hlift

/-- C9 witness: a restricted user with an intact challenge bound to id 5,
stepped by a matching click. -/
theorem restriction_exit_requires_match_witness :
    Effect.kick ∉ (Bot.stepVerif 5 (Bot.VerifOp.click 5)
        { restricted := true,
          challenge := some { text := Bot.welcomeText, button := some 5 } }).2
    ∧ Bot.stepVerif 5 Bot.VerifOp.sweep
        { restricted := true,
          challenge := some { text := Bot.welcomeText, button := some 5 } }
        = ({ restricted := true,
             challenge := some { text := Bot.welcomeText, button := some 5 } },
           [])
    ∧ (∃ c m, Bot.VerifOp.click 5 = Bot.VerifOp.click c
        ∧ (some { text := Bot.welcomeText,
                  button := some 5 } : Option Bot.ChallengeMsg) = some m
        ∧ m.button = some c) :=
  ⟨(restriction_exit_requires_match 5 (Bot.VerifOp.click 5)
      { restricted := true,
        challenge := some { text := Bot.welcomeText, button := some 5 } }).1,
   (restriction_exit_requires_match 5 (Bot.VerifOp.click 5)
      { restricted := true,
        challenge := some { text := Bot.welcomeText, button := some 5 } }).2.1,
   (restriction_exit_requires_match 5 (Bot.VerifOp.click 5)
      { restricted := true,
        challenge := some { text := Bot.welcomeText, button := some 5 } }).2.2
      rfl (by decide)⟩

/-- C10: a mismatched verification click delivers its rejection by editing
the challenge message itself: the text is replaced, the inline button is
removed, no other effect is emitted — and any further click dispatched
through the edited message does nothing, so the intended user can no longer
verify through that control. -/
theorem mismatched_click_removes_button (m : Bot.ChallengeMsg)
    (bound clicker : Int) (h : clicker ≠ bound) :
    (Bot.captcha_click m (some bound) clicker).1
        = { text := Bot.notForYouText, button := none }
    ∧ (Bot.captcha_click m (some bound) clicker).2 = []
    ∧ ∀ c2, Bot.dispatchClick (Bot.captcha_click m (some bound) clicker).1 c2
        = ((Bot.captcha_click m (some bound) clicker).1, []) := by
  refine ⟨?_, ?_, ?_⟩ <;>
    simp [Bot.captcha_click, h, Bot.edit_message_text, Bot.dispatchClick]

/-- C10 witness: user 2 clicks a challenge bound to user 1. -/
theorem mismatched_click_removes_button_witness :
    (Bot.captcha_click { text := Bot.welcomeText, button := some 1 }
        (some 1) 2).1
        = { text := Bot.notForYouText, button := none }
    ∧ (Bot.captcha_click { text := Bot.welcomeText, button := some 1 }
        (some 1) 2).2 = []
    ∧ ∀ c2, Bot.dispatchClick
        (Bot.captcha_click { text := Bot.welcomeText, button := some 1 }
          (some 1) 2).1 c2
        = ((Bot.captcha_click { text := Bot.welcomeText, button := some 1 }
            (some 1) 2).1, []) :=
  mismatched_click_removes_button
    { text := Bot.welcomeText, button := some 1 } 1 2 (by decide)
